import Mathlib

/-!
Verification of the Pokhara multi-hazard monitoring raster pipeline.

The Python sources are embedded shallowly:

* a numpy 2-D array (single-band raster grid) is a rectangular
  `List (List α)` in row-major order;
* floating point samples are modelled by `ℚ`; an IEEE NaN sample is the
  distinguished constructor `Sample.nan`, since the sources test `np.isnan`
  explicitly, and the nodata sentinel `-9999` is kept as the rational value
  `-9999` exactly as in the sources;
* numpy vectorised expressions become `List.map` / `List.zipWith` of the
  corresponding per-sample functions, and sequential masked assignments
  (`a[mask] = v` chains) become nested conditionals in which the later
  assignment takes precedence;
* Python exceptions become `Except PipelineError`; file I/O (rasterio
  read/write) is abstracted away: pipeline functions take and return the
  in-memory arrays that the sources pass around between reads and writes.
-/

/-- A raster sample: either an IEEE NaN (`np.isnan` true) or a finite
numeric value.  The sources treat NaN and the value `-9999` as nodata. -/
inductive Sample where
  | nan : Sample
  | val (x : ℚ) : Sample
deriving DecidableEq, Repr

/-- A single-band raster grid in row-major order (numpy 2-D array). -/
abbrev Grid (α : Type) := List (List α)

/-- Errors surfaced by the pipeline.  `dimensionMismatch` models the
`ValueError` raised on a SAR/DEM shape mismatch (the spec's
`DimensionMismatchError` kind), `emptyInput` the numpy error on reducing an
empty array, `unknownMethod` the `ValueError` for an unknown normalization
method, `keyError` a Python dict `KeyError`, and `notModelled` marks the one
source branch (z-score normalization, which divides by an irrational
standard deviation) that this rational-valued embedding does not cover. -/
inductive PipelineError where
  | dimensionMismatch : PipelineError
  | emptyInput : PipelineError
  | unknownMethod : PipelineError
  | keyError : PipelineError
  | notModelled : PipelineError
deriving DecidableEq, Repr

/-- Element lookup in a grid: `mget g i j` is the sample at row `i`,
column `j`, or `none` when out of range. -/
def mget {α : Type} (g : Grid α) (i j : ℕ) : Option α :=
  (g[i]?).bind fun row => row[j]?

/-- The numpy `shape` of a grid (rows, columns); the embedding only ever
builds rectangular grids, whose column count is the first row's length. -/
def gridShape {α : Type} (g : Grid α) : ℕ × ℕ :=
  (g.length, (g.headD []).length)

/-- Lookup through a doubly mapped grid. -/
theorem mget_map {α β : Type} (f : α → β) (g : Grid α) (i j : ℕ) :
    mget (g.map (List.map f)) i j = (mget g i j).map f := by
  unfold mget
  rw [List.getElem?_map]
  cases g[i]? with
  | none => rfl
  | some row => simp [List.getElem?_map]

/-- Lookup through `List.zipWith`. -/
theorem getElem?_zipWith {α β γ : Type} (f : α → β → γ) (as : List α)
    (bs : List β) (i : ℕ) :
    (List.zipWith f as bs)[i]? =
      (as[i]?).bind fun a => (bs[i]?).map fun b => f a b := by
  induction as generalizing bs i with
  | nil => simp
  | cons a as ih =>
    cases bs with
    | nil => simp
    | cons b bs =>
      cases i with
      | zero => simp
      | succ n => simpa using ih bs n

/-- Pointwise combination of two grids (numpy elementwise operation on two
same-shape arrays). -/
def zipGrid {α β γ : Type} (f : α → β → γ) (a : Grid α) (b : Grid β) :
    Grid γ :=
  List.zipWith (List.zipWith f) a b

/-- Lookup through `zipGrid`. -/
theorem mget_zipGrid {α β γ : Type} (f : α → β → γ) (a : Grid α)
    (b : Grid β) (i j : ℕ) :
    mget (zipGrid f a b) i j =
      (mget a i j).bind fun x => (mget b i j).map fun y => f x y := by
  unfold mget zipGrid
  rw [getElem?_zipWith]
  cases a[i]? with
  | none => rfl
  | some ra =>
    cases b[i]? with
    | none => simp
    | some rb => simp [getElem?_zipWith]

/-- Validity test from `apply_threshold`:
`valid_mask = ~np.isnan(sar_array) & (sar_array != -9999)`. -/
def validSample (s : Sample) : Bool :=
  match s with
  | Sample.nan => false
  | Sample.val x => decide (x ≠ -9999)

/-- The row-major list of valid sample values of a grid
(`sar_array[valid_mask]`). -/
def validValues (g : Grid Sample) : List ℚ :=
  (g.map fun row =>
    row.filterMap fun s =>
      match s with
      | Sample.nan => none
      | Sample.val x => if x = -9999 then none else some x).foldr (· ++ ·) []

/-- Mean of a list of rationals (junk value `0` on the empty list). -/
def meanQ (l : List ℚ) : ℚ := l.sum / l.length

/-- Modelled from the spec: Otsu's method, provided in the sources by the
external library call `skimage.filters.threshold_otsu` — a histogram-based
threshold maximizing the between-class variance of the two groups it
induces.  The embedding scans the valid values themselves as candidate cut
points and keeps a candidate realising the maximal between-class variance
`w0 * w1 * (mean0 - mean1)^2`; no claim depends on the exact value chosen,
only on the fact that it is a function of the valid values alone. -/
def otsuThreshold (vals : List ℚ) : ℚ :=
  let betweenVar := fun c =>
    let g0 := vals.filter fun x => decide (x ≤ c)
    let g1 := vals.filter fun x => decide (c < x)
    (g0.length : ℚ) * (g1.length : ℚ) * (meanQ g0 - meanQ g1) ^ 2
  vals.foldl (fun best c => if betweenVar best < betweenVar c then c else best)
    (vals.headD 0)

/-- Per-sample water marking of `apply_threshold`: a valid sample is water
iff its backscatter is strictly below the threshold; nodata is never
water (`water_mask` is zero-initialised and only valid positions are
assigned). -/
def markWater (thr : ℚ) (s : Sample) : Bool :=
  match s with
  | Sample.nan => false
  | Sample.val x => decide (x ≠ -9999) && decide (x < thr)

/-- Embedding of `apply_threshold` (sar_processing.py lines 19-54): in Otsu
mode the threshold is recomputed from the valid values, discarding the
`threshold` argument; in manual mode the argument is used as is.  (The
Python default `threshold=None` combined with `use_otsu=False`, a caller
error raising `TypeError`, is outside every claim and not modelled: the
manual threshold is taken as a rational.) -/
def applyThreshold (g : Grid Sample) (threshold : ℚ) (use_otsu : Bool) :
    Grid Bool :=
  let thr := if use_otsu then otsuThreshold (validValues g) else threshold
  g.map (List.map (markWater thr))

/-- Embedding of `apply_dem_mask` (sar_processing.py lines 57-83):
`refined_mask = water_mask.copy(); refined_mask[dem_array > threshold] = 0`.
Pointwise: a pixel is zeroed exactly when its co-located elevation strictly
exceeds the ceiling, and is copied unchanged otherwise. -/
def applyDemMask (water_mask : Grid Bool) (dem : Grid ℚ)
    (elevation_threshold : ℚ) : Grid Bool :=
  zipGrid (fun m d => if elevation_threshold < d then false else m)
    water_mask dem

/-- Out-of-range grid read used by the morphology kernels: scipy's
`binary_erosion`/`binary_dilation` with `border_value=0` treat samples
outside the array as background. -/
def getB (g : Grid Bool) (i j : ℕ) : Bool :=
  ((g[i]?).bind fun row => row[j]?).getD false

/-- One binary erosion step with the 4-connected structuring element
`generate_binary_structure(2, 1)` (centre plus the four axis neighbours),
border value 0. -/
def erodeAt (g : Grid Bool) (i j : ℕ) : Bool :=
  getB g i j && getB g (i + 1) j && getB g i (j + 1) &&
    (decide (0 < i) && getB g (i - 1) j) &&
    (decide (0 < j) && getB g i (j - 1))

/-- One binary dilation step with the same structuring element. -/
def dilateAt (g : Grid Bool) (i j : ℕ) : Bool :=
  getB g i j || getB g (i + 1) j || getB g i (j + 1) ||
    (decide (0 < i) && getB g (i - 1) j) ||
    (decide (0 < j) && getB g i (j - 1))

/-- Apply a pointwise neighbourhood rule to every pixel of a grid. -/
def mapGrid (f : Grid Bool → ℕ → ℕ → Bool) (g : Grid Bool) : Grid Bool :=
  g.mapIdx fun i row => row.mapIdx fun j _ => f g i j

/-- One iteration of `scipy.ndimage.binary_erosion`. -/
def erode (g : Grid Bool) : Grid Bool := mapGrid erodeAt g

/-- One iteration of `scipy.ndimage.binary_dilation`. -/
def dilate (g : Grid Bool) : Grid Bool := mapGrid dilateAt g

/-- `scipy.ndimage.binary_opening` with `iterations = k`: `k` erosions
followed by `k` dilations. -/
def binaryOpening (g : Grid Bool) (k : ℕ) : Grid Bool :=
  dilate^[k] (erode^[k] g)

/-- `scipy.ndimage.binary_closing` with `iterations = k`: `k` dilations
followed by `k` erosions. -/
def binaryClosing (g : Grid Bool) (k : ℕ) : Grid Bool :=
  erode^[k] (dilate^[k] g)

/-- Embedding of `apply_morphological_operations` (sar_processing.py lines
86-114): opening then closing, each with `kernel_size` iterations of the
4-connected structuring element. -/
def applyMorphologicalOperations (mask : Grid Bool) (kernel_size : ℕ) :
    Grid Bool :=
  binaryClosing (binaryOpening mask kernel_size) kernel_size

/-- Embedding of `process_sar_for_flood` (sar_processing.py lines 117-174),
taking the in-memory SAR and DEM arrays in place of the file reads: check
that the two shapes agree (raising `ValueError`, the spec's
`DimensionMismatchError`, otherwise), then threshold, DEM-filter and
morphologically clean the mask.  The `save_cog` call is output I/O and does
not affect the returned mask. -/
def processSarForFlood (sar : Grid Sample) (dem : Grid ℚ) (threshold : ℚ)
    (use_otsu : Bool) (dem_threshold : ℚ) (morphology_kernel : ℕ) :
    Except PipelineError (Grid Bool) :=
  if gridShape sar = gridShape dem then
    Except.ok (applyMorphologicalOperations
      (applyDemMask (applyThreshold sar threshold use_otsu) dem
        dem_threshold)
      morphology_kernel)
  else
    Except.error PipelineError.dimensionMismatch

/-- Number of set pixels of a mask (`np.sum(flood_mask)` on a 0/1 array). -/
def countOnes (g : Grid Bool) : ℕ :=
  (g.map fun row => (row.filter id).length).sum

/-- Number of pixels of a grid (`flood_mask.size`). -/
def gridSize {α : Type} (g : Grid α) : ℕ := (g.map List.length).sum

/-- Summary statistics of `calculate_flood_statistics` (sar_processing.py
lines 177-202). -/
structure FloodStats where
  flood_pixels : ℕ
  flood_area_m2 : ℚ
  flood_area_km2 : ℚ
  total_pixels : ℕ
  flood_percentage : ℚ
deriving DecidableEq, Repr

/-- Embedding of `calculate_flood_statistics`: the percentage divides the
flagged-pixel count by `flood_mask.size`, the total number of pixels of the
mask (rational division; the mask carries no validity information). -/
def calculateFloodStatistics (flood_mask : Grid Bool) (pixel_size : ℚ) :
    FloodStats :=
  let flood_pixels := countOnes flood_mask
  let flood_area_m2 := (flood_pixels : ℚ) * pixel_size ^ 2
  { flood_pixels := flood_pixels
    flood_area_m2 := flood_area_m2
    flood_area_km2 := flood_area_m2 / 1000000
    total_pixels := gridSize flood_mask
    flood_percentage :=
      (flood_pixels : ℚ) / (gridSize flood_mask : ℚ) * 100 }

/-- Reduction of a numpy array by `min` (`array_f.min()`); defined on
nonempty lists, with junk value `0` on the empty list (numpy raises
there, which callers surface as `emptyInput`). -/
def minV (l : List ℚ) : ℚ :=
  match l with
  | [] => 0
  | x :: xs => xs.foldl min x

/-- Reduction of a numpy array by `max` (`array_f.max()`). -/
def maxV (l : List ℚ) : ℚ :=
  match l with
  | [] => 0
  | x :: xs => xs.foldl max x

theorem foldl_min_le_init (xs : List ℚ) (x : ℚ) : xs.foldl min x ≤ x := by
  induction xs generalizing x with
  | nil => exact le_refl x
  | cons z zs ih =>
    calc zs.foldl min (min x z) ≤ min x z := ih (min x z)
      _ ≤ x := min_le_left _ _

theorem foldl_min_le {xs : List ℚ} {x y : ℚ} (h : y ∈ x :: xs) :
    xs.foldl min x ≤ y := by
  induction xs generalizing x with
  | nil =>
    rcases List.mem_cons.1 h with rfl | h2
    · exact le_refl y
    · cases h2
  | cons z zs ih =>
    rcases List.mem_cons.1 h with rfl | h2
    · calc zs.foldl min (min y z) ≤ min y z := foldl_min_le_init _ _
        _ ≤ y := min_le_left _ _
    · rcases List.mem_cons.1 h2 with rfl | h3
      · calc zs.foldl min (min x y) ≤ min x y := foldl_min_le_init _ _
          _ ≤ y := min_le_right _ _
      · exact ih (List.mem_cons_of_mem _ h3)

theorem foldl_min_mem {xs : List ℚ} {x : ℚ} :
    xs.foldl min x ∈ x :: xs := by
  induction xs generalizing x with
  | nil => simp [List.foldl]
  | cons z zs ih =>
    have step : List.foldl min x (z :: zs) = List.foldl min (min x z) zs :=
      rfl
    rw [step]
    rcases List.mem_cons.1 (@ih (min x z)) with he | hm
    · rw [he]
      rcases min_cases x z with ⟨he2, _⟩ | ⟨he2, _⟩
      · rw [he2]; exact List.mem_cons_self _ _
      · rw [he2]; exact List.mem_cons_of_mem _ (List.mem_cons_self _ _)
    · exact List.mem_cons_of_mem _ (List.mem_cons_of_mem _ hm)

theorem le_foldl_max_init (xs : List ℚ) (x : ℚ) : x ≤ xs.foldl max x := by
  induction xs generalizing x with
  | nil => exact le_refl x
  | cons z zs ih =>
    calc x ≤ max x z := le_max_left _ _
      _ ≤ zs.foldl max (max x z) := ih (max x z)

theorem le_foldl_max {xs : List ℚ} {x y : ℚ} (h : y ∈ x :: xs) :
    y ≤ xs.foldl max x := by
  induction xs generalizing x with
  | nil =>
    rcases List.mem_cons.1 h with rfl | h2
    · exact le_refl y
    · cases h2
  | cons z zs ih =>
    rcases List.mem_cons.1 h with rfl | h2
    · calc y ≤ max y z := le_max_left _ _
        _ ≤ zs.foldl max (max y z) := le_foldl_max_init _ _
    · rcases List.mem_cons.1 h2 with rfl | h3
      · calc y ≤ max x y := le_max_right _ _
          _ ≤ zs.foldl max (max x y) := le_foldl_max_init _ _
      · exact ih (List.mem_cons_of_mem _ h3)

theorem foldl_max_mem {xs : List ℚ} {x : ℚ} :
    xs.foldl max x ∈ x :: xs := by
  induction xs generalizing x with
  | nil => simp [List.foldl]
  | cons z zs ih =>
    have step : List.foldl max x (z :: zs) = List.foldl max (max x z) zs :=
      rfl
    rw [step]
    rcases List.mem_cons.1 (@ih (max x z)) with he | hm
    · rw [he]
      rcases max_cases x z with ⟨he2, _⟩ | ⟨he2, _⟩
      · rw [he2]; exact List.mem_cons_self _ _
      · rw [he2]; exact List.mem_cons_of_mem _ (List.mem_cons_self _ _)
    · exact List.mem_cons_of_mem _ (List.mem_cons_of_mem _ hm)

/-- Every member of a nonempty list is bracketed by `minV` and `maxV`. -/
theorem minV_le_le_maxV {l : List ℚ} {y : ℚ} (h : y ∈ l) :
    minV l ≤ y ∧ y ≤ maxV l := by
  match l with
  | [] => cases h
  | x :: xs => exact ⟨foldl_min_le h, le_foldl_max h⟩

/-- The minimum of a nonempty list is attained at one of its samples. -/
theorem minV_mem {l : List ℚ} (h : l ≠ []) : minV l ∈ l := by
  match l with
  | [] => exact absurd rfl h
  | x :: xs => exact foldl_min_mem

/-- The maximum of a nonempty list is attained at one of its samples. -/
theorem maxV_mem {l : List ℚ} (h : l ≠ []) : maxV l ∈ l := by
  match l with
  | [] => exact absurd rfl h
  | x :: xs => exact foldl_max_mem

/-- Embedding of `normalize_raster` (multi_hazard.py lines 17-53), on the
flattened sample list of the input array.  The `min_max` branch reduces the
whole array — it applies no validity mask, so nodata sentinel values take
part in `min`/`max` — and rescales when `max > min`, otherwise returning
the input unchanged.  The reduction of an empty array raises in numpy
(`emptyInput` here).  The `z_score` branch divides by the standard
deviation, an irrational number in general, and is outside every claim; it
is mapped to the explicit `notModelled` error.  An unknown method name
raises `ValueError` (`unknownMethod`). -/
def normalizeRaster (array : List ℚ) (method : String) :
    Except PipelineError (List ℚ) :=
  if method = "min_max" then
    match array with
    | [] => Except.error PipelineError.emptyInput
    | _ :: _ =>
      let min_val := minV array
      let max_val := maxV array
      if min_val < max_val then
        Except.ok (array.map fun x => (x - min_val) / (max_val - min_val))
      else
        Except.ok array
  else if method = "z_score" then
    Except.error PipelineError.notModelled
  else
    Except.error PipelineError.unknownMethod

/-- A Python weight dictionary: association list from hazard role to
weight (`Dict[str, float]`; keys are unique in a dict, which no claim
needs to assume). -/
abbrev Weights := List (String × ℚ)

/-- Dictionary lookup `weights[key]` as an option (`none` models the
`KeyError` path). -/
def wget (w : Weights) (key : String) : Option ℚ :=
  (w.find? fun p => p.1 == key).map fun p => p.2

/-- Sum of all dictionary values, `sum(weights.values())`. -/
def wsum (w : Weights) : ℚ := (w.map fun p => p.2).sum

/-- Three-list pointwise combination (numpy elementwise expression over
three same-shape arrays). -/
def zipWith3Q (f : ℚ → ℚ → ℚ → ℚ) : List ℚ → List ℚ → List ℚ → List ℚ
  | a :: as, b :: bs, c :: cs => f a b c :: zipWith3Q f as bs cs
  | _, _, _ => []

/-- Embedding of `combine_hazards` (multi_hazard.py lines 56-125), taking
the in-memory hazard arrays in place of the file reads (an absent optional
exposure file is `none`).  Both mandatory layers are min-max normalized
(the configured `normalization_method` is `"min_max"`), the landslide and
flood weights are looked up (line 95 evaluates them in either case), and
then:
with exposure present the combination divides every weight by
`sum(weights.values())` — the sum over all entries of the weight table —
while with exposure absent it divides by the sum of the landslide and
flood weights only. -/
def combineHazards (landslide flood : List ℚ) (exposure : Option (List ℚ))
    (weights : Weights) : Except PipelineError (List ℚ) :=
  match normalizeRaster landslide ("min_max") with
  | Except.error e => Except.error e
  | Except.ok landslide_norm =>
    match normalizeRaster flood ("min_max") with
    | Except.error e => Except.error e
    | Except.ok flood_norm =>
      match wget weights ("landslide") with
      | none => Except.error PipelineError.keyError
      | some wl =>
        match wget weights ("flood") with
        | none => Except.error PipelineError.keyError
        | some wf =>
          match exposure with
          | some exposure_arr =>
            (match normalizeRaster exposure_arr ("min_max"),
                wget weights ("exposure") with
             | Except.error e, _ => Except.error e
             | Except.ok _, none => Except.error PipelineError.keyError
             | Except.ok exposure_norm, some we =>
               let total_weight := wsum weights
               Except.ok (zipWith3Q
                 (fun a b c => wl / total_weight * a +
                   wf / total_weight * b + we / total_weight * c)
                 landslide_norm flood_norm exposure_norm))
          | none =>
            let total_weight := wl + wf
            Except.ok (List.zipWith
              (fun a b => wl / total_weight * a + wf / total_weight * b)
              landslide_norm flood_norm)

/-- Lexicographic comparison of character lists: the order Python uses on
strings (by code point). -/
def charListLt : List Char → List Char → Bool
  | [], [] => false
  | [], _ :: _ => true
  | _ :: _, [] => false
  | a :: as, b :: bs =>
    if a < b then true else if b < a then false else charListLt as bs

/-- String comparison `a <= b` by code points, as Python's `sorted` uses. -/
def strLeB (a b : String) : Bool := !(charListLt b.data a.data)

/-- Stable insertion into a sorted list: the new element goes after every
element the comparator puts at or below it. -/
def insertLe {α : Type} (le : α → α → Bool) (x : α) : List α → List α
  | [] => [x]
  | y :: ys => if le y x then y :: insertLe le x ys else x :: y :: ys

/-- Stable sort by repeated insertion; models Python's stable `sorted`. -/
def sortLe {α : Type} (le : α → α → Bool) (l : List α) : List α :=
  l.foldl (fun acc x => insertLe le x acc) []

/-- Dictionary lookup `class_values[class_name]` for `classify_raster`.
The default class-value table built by `classify_raster` contains every
threshold name, so the `KeyError` path of a custom table missing a name is
never reached by any claim; it is absorbed into the junk value `0`. -/
def lookupClassValue (cv : List (String × ℕ)) (name : String) : ℕ :=
  ((cv.find? fun p => p.1 == name).map fun p => p.2).getD 0

/-- `max(class_values.values())` (Python `max` raises on an empty dict,
which no claim exercises; junk value `0` there). -/
def maxClassValue (cv : List (String × ℕ)) : ℕ :=
  (cv.map fun p => p.2).foldl max 0

/-- The loop of `classify_raster` (raster_utils.py lines 161-168) acting on
one sample: walk the value-sorted `(class_name, threshold)` pairs carrying
the previous threshold; the first bin tests `x <= t`, later bins test
`prev < x <= t`, and a matching bin overwrites the class computed so far
(sequential masked assignment). -/
def classifyLoop (cv : List (String × ℕ)) (x : ℚ) :
    List (String × ℚ) → Option ℚ → ℕ → ℕ
  | [], _, c => c
  | (name, thr) :: rest, prev, c =>
    let hit := match prev with
      | none => decide (x ≤ thr)
      | some p => decide (p < x) && decide (x ≤ thr)
    classifyLoop cv x rest (some thr)
      (if hit then lookupClassValue cv name else c)

/-- Embedding of `classify_raster` (raster_utils.py lines 137-177) on one
sample.  When `class_values` is `None` the default table enumerates the
threshold names in Python's `sorted` order — alphabetically — assigning
`i + 1`; the thresholds themselves are sorted by value; finally samples
above the highest threshold receive `max(class_values.values())`. -/
def classifyRasterVal (thresholds : List (String × ℚ))
    (class_values : Option (List (String × ℕ))) (x : ℚ) : ℕ :=
  let cv := match class_values with
    | some cv => cv
    | none =>
      List.mapIdx (fun i name => (name, i + 1))
        (sortLe strLeB (thresholds.map fun p => p.1))
  let sorted_thresholds := sortLe (fun p q => decide (p.2 ≤ q.2)) thresholds
  let c := classifyLoop cv x sorted_thresholds none 0
  match sorted_thresholds.getLast? with
  | none => c
  | some last => if last.2 < x then maxClassValue cv else c

/-- Embedding of `classify_raster` on a whole grid. -/
def classifyRaster (thresholds : List (String × ℚ))
    (class_values : Option (List (String × ℕ))) (g : Grid ℚ) : Grid ℕ :=
  g.map (List.map (classifyRasterVal thresholds class_values))

/-- The four ascending cut points consumed by `classify_risk`
(`thresholds['very_low']` … `thresholds['high']`; the claims always
supply all four keys, so the dict is a structure here). -/
structure RiskThresholds where
  very_low : ℚ
  low : ℚ
  moderate : ℚ
  high : ℚ
deriving DecidableEq, Repr

/-- The default `MULTI_HAZARD_CONFIG['classification_thresholds']`
(config.py lines 89-94). -/
def multiHazardClassificationThresholds : RiskThresholds :=
  { very_low := 2/10, low := 4/10, moderate := 6/10, high := 8/10 }

/-- The default `MULTI_HAZARD_CONFIG['weights']` (config.py lines 83-87). -/
def multiHazardWeights : Weights :=
  [("landslide", 4/10), ("flood", 4/10), ("exposure", 2/10)]

/-- Embedding of `classify_risk` (multi_hazard.py lines 128-153) on one
sample.  The source initialises the class grid to zero and performs five
sequential masked assignments; a later assignment overwrites an earlier
one, so the final value is the innermost-to-outermost conditional below.
A NaN sample fails every numpy comparison and keeps the initial `0`; any
numeric sample — the `-9999` nodata sentinel included — is compared like
an ordinary value. -/
def classifyRiskVal (t : RiskThresholds) (s : Sample) : ℕ :=
  match s with
  | Sample.nan => 0
  | Sample.val x =>
    if t.high < x then 5
    else if t.moderate < x ∧ x ≤ t.high then 4
    else if t.low < x ∧ x ≤ t.moderate then 3
    else if t.very_low < x ∧ x ≤ t.low then 2
    else if x ≤ t.very_low then 1
    else 0

/-- Embedding of `classify_risk` on a whole grid. -/
def classifyRisk (t : RiskThresholds) (g : Grid Sample) : Grid ℕ :=
  g.map (List.map (classifyRiskVal t))

/-- Pointwise description of manual-mode thresholding. -/
theorem mget_applyThreshold_manual (g : Grid Sample) (t : ℚ) (i j : ℕ)
    (s : Sample) (hs : mget g i j = some s) :
    mget (applyThreshold g t false) i j = some (markWater t s) := by
  have hth : applyThreshold g t false = g.map (List.map (markWater t)) := rfl
  rw [hth, mget_map, hs]
  rfl

/-- Pointwise description of the elevation filter. -/
theorem mget_applyDemMask (mask : Grid Bool) (dem : Grid ℚ) (thr : ℚ)
    (i j : ℕ) (m : Bool) (d : ℚ) (hm : mget mask i j = some m)
    (hd : mget dem i j = some d) :
    mget (applyDemMask mask dem thr) i j =
      some (if thr < d then false else m) := by
  unfold applyDemMask
  rw [mget_zipGrid, hm, hd]
  rfl

/-- C7: in manual mode with threshold `t`, a sample of the output mask is
`1` (true) iff the input sample there is valid — a numeric value other
than the `-9999` sentinel and not NaN — and strictly less than `t`;
and every nodata sample yields `0` (false) in the mask. -/
theorem applyThreshold_manual_iff (g : Grid Sample) (t : ℚ) (i j : ℕ) :
    (mget (applyThreshold g t false) i j = some true ↔
      ∃ v : ℚ, mget g i j = some (Sample.val v) ∧ v ≠ -9999 ∧ v < t)
    ∧ (∀ s, mget g i j = some s → validSample s = false →
        mget (applyThreshold g t false) i j = some false) := by
  have hth : applyThreshold g t false = g.map (List.map (markWater t)) := rfl
  constructor
  · rw [hth, mget_map]
    cases hg : mget g i j with
    | none => simp
    | some s =>
      cases s with
      | nan => simp [markWater]
      | val x => simp [markWater]
  · intro s hs hv
    rw [hth, mget_map, hs]
    cases s with
    | nan => simp [markWater]
    | val x =>
      simp only [validSample, decide_eq_false_iff_not, not_not] at hv
      simp [markWater, hv]

/-- C7 witness: the single water pixel of a one-pixel grid at backscatter
−22 dB is marked under manual threshold −18 dB. -/
theorem applyThreshold_manual_iff_witness :
    mget (applyThreshold [[Sample.val (-22)]] (-18) false) 0 0 = some true :=
  (applyThreshold_manual_iff [[Sample.val (-22)]] (-18) 0 0).1.mpr
    ⟨-22, rfl, by norm_num, by norm_num⟩

/-- C10: with Otsu mode selected, the output mask does not depend on the
manual threshold argument — the Otsu branch recomputes the threshold from
the valid values and discards the argument. -/
theorem applyThreshold_otsu_ignores_manual (g : Grid Sample) (t1 t2 : ℚ) :
    applyThreshold g t1 true = applyThreshold g t2 true := rfl

/-- C9: the elevation filter zeroes exactly the pixels whose co-located
elevation strictly exceeds the ceiling and copies every other pixel
unchanged; consequently a pixel set in the output was already set in the
input and its elevation is at most the ceiling (the filter never adds a
pixel). -/
theorem applyDemMask_pointwise (mask : Grid Bool) (dem : Grid ℚ) (thr : ℚ)
    (i j : ℕ) (m : Bool) (d : ℚ) (hm : mget mask i j = some m)
    (hd : mget dem i j = some d) :
    mget (applyDemMask mask dem thr) i j =
      some (if thr < d then false else m)
    ∧ (mget (applyDemMask mask dem thr) i j = some true →
        m = true ∧ d ≤ thr) := by
  have h1 := mget_applyDemMask mask dem thr i j m d hm hd
  refine ⟨h1, ?_⟩
  rw [h1]
  intro h2
  by_cases hc : thr < d
  · rw [if_pos hc] at h2
    simp at h2
  · rw [if_neg hc] at h2
    exact ⟨Option.some.inj h2, le_of_not_lt hc⟩

/-- C9 witness: a set pixel at elevation 50 survives the default 100 m
ceiling unchanged. -/
theorem applyDemMask_pointwise_witness :
    mget (applyDemMask [[true]] [[(50 : ℚ)]] 100) 0 0 = some true := by
  have h :=
    (applyDemMask_pointwise [[true]] [[(50 : ℚ)]] 100 0 0 true 50 rfl rfl).1
  norm_num at h
  exact h

/-- C8: when the SAR and DEM grids differ in shape, the flood pipeline
fails with the dimension-mismatch error (the `ValueError` of
sar_processing.py lines 153-157, the spec's `DimensionMismatchError`) and
produces no mask. -/
theorem processSarForFlood_shape_mismatch_error (sar : Grid Sample)
    (dem : Grid ℚ) (t : ℚ) (u : Bool) (dt : ℚ) (k : ℕ)
    (h : gridShape sar ≠ gridShape dem) :
    processSarForFlood sar dem t u dt k =
      Except.error PipelineError.dimensionMismatch := by
  unfold processSarForFlood
  rw [if_neg h]

/-- C8 witness: a 1×1 SAR grid against a 1×2 DEM grid fails with the
dimension-mismatch error. -/
theorem processSarForFlood_shape_mismatch_error_witness :
    processSarForFlood [[Sample.val 0]] [[(0 : ℚ), 0]] 0 false 100 3 =
      Except.error PipelineError.dimensionMismatch :=
  processSarForFlood_shape_mismatch_error _ _ _ _ _ _ (by decide)

/-- C1 counterexample: a 1×1 grid whose only pixel is water (backscatter
−22 dB < manual threshold −18 dB) at elevation 0 ≤ 100 m.  The claim
predicts final mask `1` on this water pixel, but the morphological
cleanup — three erosions with border value 0 remove any pixel within
three steps of the array border — empties the mask, so the pipeline
returns `0` there. -/
theorem floodPipeline_final_mask_counterexample :
    processSarForFlood [[Sample.val (-22)]] [[(0 : ℚ)]] (-18) false 100 3 =
      Except.ok [[false]]
    ∧ (Except.ok [[false]] : Except PipelineError (Grid Bool)) ≠
        Except.ok [[true]] :=
  ⟨rfl, by simp⟩

/-- C1 amended: for a backscatter grid whose samples are all −22 dB
(water) or −6 dB (land), the mask after manual −18 dB thresholding and
the elevation filter — before morphological cleanup — is `1` exactly on
the water pixels whose co-located elevation does not exceed the 100 m
ceiling; in particular raising a water pixel's elevation above the
ceiling removes it from this intermediate mask. -/
theorem floodMask_manual_water_iff (sar : Grid Sample) (dem : Grid ℚ)
    (i j : ℕ) (v : Sample) (e : ℚ) (hs : mget sar i j = some v)
    (hd : mget dem i j = some e)
    (hw : v = Sample.val (-22) ∨ v = Sample.val (-6)) :
    mget (applyDemMask (applyThreshold sar (-18) false) dem 100) i j =
      some true
    ↔ (v = Sample.val (-22) ∧ e ≤ 100) := by
  have h1 := mget_applyThreshold_manual sar (-18) i j v hs
  have h2 := mget_applyDemMask (applyThreshold sar (-18) false) dem 100 i j
    (markWater (-18) v) e h1 hd
  rw [h2]
  rcases hw with rfl | rfl
  · rw [show markWater (-18) (Sample.val (-22)) = true from by
      norm_num [markWater]]
    constructor
    · intro h3
      by_cases hc : (100 : ℚ) < e
      · rw [if_pos hc] at h3
        simp at h3
      · exact ⟨rfl, le_of_not_lt hc⟩
    · rintro ⟨-, he⟩
      rw [if_neg (not_lt.2 he)]
  · rw [show markWater (-18) (Sample.val (-6)) = false from by
      norm_num [markWater], ite_self]
    constructor
    · intro h3
      exact absurd h3 (by simp)
    · rintro ⟨hv, -⟩
      exact absurd (Sample.val.inj hv) (by norm_num)

/-- C1 amended witness: the water pixel of a 1×1 grid at elevation 0 is
set in the intermediate mask. -/
theorem floodMask_manual_water_iff_witness :
    mget (applyDemMask (applyThreshold [[Sample.val (-22)]] (-18) false)
      [[(0 : ℚ)]] 100) 0 0 = some true :=
  (floodMask_manual_water_iff [[Sample.val (-22)]] [[(0 : ℚ)]] 0 0
    (Sample.val (-22)) 0 rfl rfl (Or.inl rfl)).mpr ⟨rfl, by norm_num⟩

/-- C5 counterexample: `normalize_raster` reduces the whole array, so the
`-9999` nodata sentinel takes part in `min`; the valid sample `2` of
`[-9999, 2, 4]` maps to `10001/10003`, not to the claim's
`(2 − 2)/(4 − 2) = 0` over valid samples only.  And on the constant array
`[5, 5]` the identity branch returns `5`, outside `[0, 1]`. -/
theorem normalizeRaster_minmax_counterexample :
    normalizeRaster [-9999, 2, 4] ("min_max") =
      Except.ok [0, 10001/10003, 1]
    ∧ (10001/10003 : ℚ) ≠ (2 - 2) / (4 - 2)
    ∧ normalizeRaster [5, 5] ("min_max") = Except.ok [5, 5]
    ∧ ¬ ((5 : ℚ) ≤ 1) := by
  refine ⟨?_, by norm_num, ?_, by norm_num⟩
  · norm_num [normalizeRaster, minV, maxV, min_def, max_def]
  · norm_num [normalizeRaster, minV, maxV, min_def, max_def]

/-- C5 amended: `min_max` normalization maps every sample `x` — with `min`
and `max` taken over all samples, nodata included — to
`(x − min)/(max − min)` when `max > min`, and every such output lies in
`[0, 1]`; when `max = min` the input is returned unchanged (and may lie
outside `[0, 1]`, as the counterexample shows). -/
theorem normalizeRaster_minmax_amended (a : List ℚ) (ha : a ≠ []) :
    (minV a < maxV a →
      normalizeRaster a ("min_max") =
        Except.ok (a.map fun x => (x - minV a) / (maxV a - minV a))
      ∧ ∀ y ∈ a.map fun x => (x - minV a) / (maxV a - minV a),
          0 ≤ y ∧ y ≤ 1)
    ∧ (¬ minV a < maxV a → normalizeRaster a ("min_max") = Except.ok a) := by
  rcases List.exists_cons_of_ne_nil ha with ⟨x, xs, rfl⟩
  constructor
  · intro hlt
    constructor
    · simp only [normalizeRaster, eq_self_iff_true, if_true]
      rw [if_pos hlt]
    · intro y hy
      rcases List.mem_map.1 hy with ⟨z, hz, rfl⟩
      have hb := minV_le_le_maxV (l := x :: xs) hz
      have hpos : 0 < maxV (x :: xs) - minV (x :: xs) := by linarith
      constructor
      · exact div_nonneg (by linarith) (le_of_lt hpos)
      · exact (div_le_one hpos).2 (by linarith)
  · intro hge
    simp only [normalizeRaster, eq_self_iff_true, if_true]
    rw [if_neg hge]

/-- C5 amended witness: on `[0, 2]` the scaled branch applies. -/
theorem normalizeRaster_minmax_amended_witness :
    normalizeRaster [(0 : ℚ), 2] ("min_max") =
      Except.ok ([(0 : ℚ), 2].map fun x =>
        (x - minV [(0 : ℚ), 2]) / (maxV [(0 : ℚ), 2] - minV [(0 : ℚ), 2])) :=
  ((normalizeRaster_minmax_amended [0, 2] (by decide)).1 (by decide)).1

/-- C6 counterexample: the flood-percentage statistic divides by the total
pixel count, not the valid area.  A source grid with one valid water pixel
and one NaN pixel yields a mask with 1 of 2 pixels set; its percentage is
50, while the percentage of the total valid area (1 valid pixel, 1
flooded) is 100.  And the normalization statistics include nodata: on
`[-9999, 0, 2]` the valid sample `0` maps to `9999/10001`, not to the
valid-only `(0 − 0)/(2 − 0) = 0`. -/
theorem statistics_valid_area_counterexample :
    (validValues [[Sample.val (-22), Sample.nan]]).length = 1
    ∧ countOnes (applyThreshold [[Sample.val (-22), Sample.nan]] (-18) false)
        = 1
    ∧ (calculateFloodStatistics
        (applyThreshold [[Sample.val (-22), Sample.nan]] (-18) false)
        30).flood_percentage = 50
    ∧ ((50 : ℚ) ≠ (1 : ℚ) / 1 * 100)
    ∧ normalizeRaster [-9999, 0, 2] ("min_max") =
        Except.ok [0, 9999/10001, 1]
    ∧ ((9999/10001 : ℚ) ≠ (0 - 0) / (2 - 0)) := by
  refine ⟨by decide, by decide, ?_, by norm_num, ?_, by norm_num⟩
  · norm_num [calculateFloodStatistics, countOnes, gridSize, applyThreshold,
      markWater]
  · norm_num [normalizeRaster, minV, maxV, min_def, max_def]

/-- C6 amended: the pipeline statistics range over all samples: `min_max`
normalization applies the global `(x − min)/(max − min)` formula (or the
identity) to every sample uniformly, with `min`/`max` attained among and
bounding all samples — nodata sentinels included — and the
flood-percentage statistic is the flagged count over the total pixel
count of the mask (times 100), not over the valid area. -/
theorem statistics_all_pixels_amended :
    (∀ (a b : List ℚ), normalizeRaster a ("min_max") = Except.ok b →
      ∀ (i : ℕ) (x : ℚ), a[i]? = some x →
        b[i]? = some (if minV a < maxV a then
          (x - minV a) / (maxV a - minV a) else x))
    ∧ (∀ a : List ℚ, a ≠ [] →
        minV a ∈ a ∧ maxV a ∈ a ∧ ∀ x ∈ a, minV a ≤ x ∧ x ≤ maxV a)
    ∧ (∀ (mask : Grid Bool) (ps : ℚ),
        (calculateFloodStatistics mask ps).flood_percentage =
          (countOnes mask : ℚ) / (gridSize mask : ℚ) * 100) := by
  refine ⟨?_, ?_, fun mask ps => rfl⟩
  · intro a b h i x hx
    match a, hx with
    | y :: ys, hx =>
      simp only [normalizeRaster, eq_self_iff_true, if_true] at h
      by_cases hlt : minV (y :: ys) < maxV (y :: ys)
      · rw [if_pos hlt] at h
        rw [if_pos hlt, ← Except.ok.inj h, List.getElem?_map, hx]
        rfl
      · rw [if_neg hlt] at h
        rw [if_neg hlt, ← Except.ok.inj h, hx]
  · intro a ha
    refine ⟨minV_mem ha, maxV_mem ha, fun x hx => minV_le_le_maxV hx⟩

/-- C6 amended witness: on `[-9999, 0, 2]` the minimum used by
normalization is the nodata sentinel itself. -/
theorem statistics_all_pixels_amended_witness :
    minV [(-9999 : ℚ), 0, 2] ∈ [(-9999 : ℚ), 0, 2]
    ∧ maxV [(-9999 : ℚ), 0, 2] ∈ [(-9999 : ℚ), 0, 2]
    ∧ ∀ x ∈ [(-9999 : ℚ), 0, 2],
        minV [(-9999 : ℚ), 0, 2] ≤ x ∧ x ≤ maxV [(-9999 : ℚ), 0, 2] :=
  statistics_all_pixels_amended.2.1 [-9999, 0, 2] (by decide)

/-- C4 counterexample: with all three layers supplied, the three-layer
branch of `combine_hazards` divides by `sum(weights.values())` — the sum
over the whole weight table — so adding an entry for a role outside the
input set (here `population`) changes the output, contradicting the
claimed invariance in the weight table's extra entries. -/
theorem combineHazards_extra_entry_counterexample :
    combineHazards [0, 1] [0, 1] (some [0, 1])
      [("landslide", 35/100), ("flood", 35/100), ("exposure", 30/100)] =
      Except.ok [0, 1]
    ∧ combineHazards [0, 1] [0, 1] (some [0, 1])
        [("landslide", 35/100), ("flood", 35/100), ("exposure", 30/100),
         ("population", 1)] =
        Except.ok [0, 1/2]
    ∧ (Except.ok [(0 : ℚ), 1] : Except PipelineError (List ℚ)) ≠
        Except.ok [(0 : ℚ), 1/2] := by
  refine ⟨?_, ?_, by simp⟩
  · simp [combineHazards, normalizeRaster, wget, wsum, minV, maxV,
      min_def, max_def, zipWith3Q, List.find?]
    norm_num
  · simp [combineHazards, normalizeRaster, wget, wsum, minV, maxV,
      min_def, max_def, zipWith3Q, List.find?]
    norm_num

/-- C4 amended: with exposure absent, `combine_hazards` renormalizes over
the landslide and flood weights only — the output is therefore invariant
in every other entry of the weight table, the two renormalized
coefficients sum to 1 whenever their sum is nonzero, and with weights
0.35/0.35 both equal 1/2.  With exposure present, however, every weight is
divided by the sum of all entries of the weight table, so entries for
roles outside the input set do enter the output. -/
theorem combineHazards_weights_amended :
    (∀ (l f : List ℚ) (W W2 : Weights),
        wget W ("landslide") = wget W2 ("landslide") →
        wget W ("flood") = wget W2 ("flood") →
        combineHazards l f none W = combineHazards l f none W2)
    ∧ (∀ (l f ln fn : List ℚ) (W : Weights) (wl wf : ℚ),
        normalizeRaster l ("min_max") = Except.ok ln →
        normalizeRaster f ("min_max") = Except.ok fn →
        wget W ("landslide") = some wl → wget W ("flood") = some wf →
        combineHazards l f none W =
          Except.ok (List.zipWith
            (fun a b => wl / (wl + wf) * a + wf / (wl + wf) * b) ln fn)
        ∧ (wl + wf ≠ 0 → wl / (wl + wf) + wf / (wl + wf) = 1)
        ∧ (wl = 35/100 → wf = 35/100 →
            wl / (wl + wf) = 1/2 ∧ wf / (wl + wf) = 1/2))
    ∧ (∀ (l f e ln fn en : List ℚ) (W : Weights) (wl wf we : ℚ),
        normalizeRaster l ("min_max") = Except.ok ln →
        normalizeRaster f ("min_max") = Except.ok fn →
        normalizeRaster e ("min_max") = Except.ok en →
        wget W ("landslide") = some wl → wget W ("flood") = some wf →
        wget W ("exposure") = some we →
        combineHazards l f (some e) W =
          Except.ok (zipWith3Q
            (fun a b c => wl / wsum W * a + wf / wsum W * b +
              we / wsum W * c) ln fn en)) := by
  refine ⟨?_, ?_, ?_⟩
  · intro l f W W2 h1 h2
    simp only [combineHazards, h1, h2]
  · intro l f ln fn W wl wf hln hfn hwl hwf
    refine ⟨?_, ?_, ?_⟩
    · simp only [combineHazards, hln, hfn, hwl, hwf]
    · intro hnz
      rw [div_add_div_same, div_self hnz]
    · rintro rfl rfl
      norm_num
  · intro l f e ln fn en W wl wf we hln hfn hen hwl hwf hwe
    simp only [combineHazards, hln, hfn, hen, hwl, hwf, hwe]

/-- C4 amended witness: the two-layer renormalization at weights
0.35/0.35 gives coefficients 1/2 and 1/2. -/
theorem combineHazards_weights_amended_witness :
    combineHazards [(0 : ℚ), 2] [(0 : ℚ), 2] none
      [("landslide", 35/100), ("flood", 35/100), ("exposure", 30/100)] =
      Except.ok (List.zipWith
        (fun a b => (35/100 : ℚ) / (35/100 + 35/100) * a +
          (35/100 : ℚ) / (35/100 + 35/100) * b)
        ([(0 : ℚ), 2].map fun x =>
          (x - minV [(0 : ℚ), 2]) / (maxV [(0 : ℚ), 2] - minV [(0 : ℚ), 2]))
        ([(0 : ℚ), 2].map fun x =>
          (x - minV [(0 : ℚ), 2]) / (maxV [(0 : ℚ), 2] - minV [(0 : ℚ), 2])))
    ∧ ((35/100 : ℚ) / (35/100 + 35/100) = 1/2
      ∧ (35/100 : ℚ) / (35/100 + 35/100) = 1/2) :=
  let h := combineHazards_weights_amended.2.1 [0, 2] [0, 2] _ _
    [("landslide", 35/100), ("flood", 35/100), ("exposure", 30/100)]
    (35/100) (35/100) rfl rfl rfl rfl
  ⟨h.1, h.2.2 rfl rfl⟩

/-- C2 counterexample: `classify_raster` with a strictly increasing
four-bound scheme and the default class-value table.  Python's
`sorted(thresholds.keys())` enumerates the standard class names
alphabetically (`high` ↦ 1, `low` ↦ 2, `moderate` ↦ 3, `very_low` ↦ 4),
so the sample 5 in bin `(4, 6]` gets class 3 while the larger sample 7 in
bin `(6, 8]` gets class 1: labels are not monotone in the input value. -/
theorem classifyRaster_default_not_monotone :
    classifyRaster
      [("very_low", 2), ("low", 4), ("moderate", 6), ("high", 8)] none
      [[5, 7]] = [[3, 1]]
    ∧ ((2 : ℚ) < 4 ∧ (4 : ℚ) < 6 ∧ (6 : ℚ) < 8)
    ∧ ((5 : ℚ) ≤ 7)
    ∧ ¬ ((3 : ℕ) ≤ 1) := by decide

/-- Canonical form of `classify_risk` on a finite value under strictly
increasing bounds: the sequential masked assignments coincide with the
usual first-matching-bin conditional. -/
theorem classifyRiskVal_val_eq (t : RiskThresholds) (h1 : t.very_low < t.low)
    (h2 : t.low < t.moderate) (h3 : t.moderate < t.high) (x : ℚ) :
    classifyRiskVal t (Sample.val x) =
      if x ≤ t.very_low then 1 else if x ≤ t.low then 2
      else if x ≤ t.moderate then 3 else if x ≤ t.high then 4 else 5 := by
  rcases le_or_lt x t.very_low with hx1 | hx1
  · have e1 : ¬ t.high < x := by linarith
    have e2 : ¬ (t.moderate < x ∧ x ≤ t.high) := by rintro ⟨h, -⟩; linarith
    have e3 : ¬ (t.low < x ∧ x ≤ t.moderate) := by rintro ⟨h, -⟩; linarith
    have e4 : ¬ (t.very_low < x ∧ x ≤ t.low) := by rintro ⟨h, -⟩; linarith
    simp only [classifyRiskVal, if_neg e1, if_neg e2, if_neg e3, if_neg e4,
      if_pos hx1]
  · rcases le_or_lt x t.low with hx2 | hx2
    · have e1 : ¬ t.high < x := by linarith
      have e2 : ¬ (t.moderate < x ∧ x ≤ t.high) := by rintro ⟨h, -⟩; linarith
      have e3 : ¬ (t.low < x ∧ x ≤ t.moderate) := by rintro ⟨h, -⟩; linarith
      simp only [classifyRiskVal, if_neg e1, if_neg e2, if_neg e3,
        if_pos (show t.very_low < x ∧ x ≤ t.low from ⟨hx1, hx2⟩),
        if_neg (not_le.2 hx1), if_pos hx2]
    · rcases le_or_lt x t.moderate with hx3 | hx3
      · have e1 : ¬ t.high < x := by linarith
        have e2 : ¬ (t.moderate < x ∧ x ≤ t.high) := by rintro ⟨h, -⟩; linarith
        simp only [classifyRiskVal, if_neg e1, if_neg e2,
          if_pos (show t.low < x ∧ x ≤ t.moderate from ⟨hx2, hx3⟩),
          if_neg (not_le.2 hx1), if_neg (not_le.2 hx2), if_pos hx3]
      · rcases le_or_lt x t.high with hx4 | hx4
        · have e1 : ¬ t.high < x := by linarith
          simp only [classifyRiskVal, if_neg e1,
            if_pos (show t.moderate < x ∧ x ≤ t.high from ⟨hx3, hx4⟩),
            if_neg (not_le.2 hx1), if_neg (not_le.2 hx2),
            if_neg (not_le.2 hx3), if_pos hx4]
        · simp only [classifyRiskVal, if_pos hx4,
            if_neg (not_le.2 hx1), if_neg (not_le.2 hx2),
            if_neg (not_le.2 hx3), if_neg (not_le.2 hx4)]

/-- C2 amended: `classify_risk` — the classification the multi-hazard
pipeline uses — maps, under strictly increasing bounds, every finite
value to exactly one of the classes 1..5, monotonically in the value.
(The counterexample shows the claim fails for `classify_raster` under its
default, alphabetically enumerated class values.) -/
theorem classifyRisk_class_range_mono (t : RiskThresholds)
    (h1 : t.very_low < t.low) (h2 : t.low < t.moderate)
    (h3 : t.moderate < t.high) (x y : ℚ) (hxy : x ≤ y) :
    (1 ≤ classifyRiskVal t (Sample.val x)
      ∧ classifyRiskVal t (Sample.val x) ≤ 5)
    ∧ classifyRiskVal t (Sample.val x) ≤ classifyRiskVal t (Sample.val y) := by
  rw [classifyRiskVal_val_eq t h1 h2 h3 x, classifyRiskVal_val_eq t h1 h2 h3 y]
  constructor
  · split_ifs <;> norm_num
  · split_ifs <;> first | decide | (exfalso; linarith)

/-- C2 amended witness: with the repository's 0.2/0.4/0.6/0.8 bounds the
sample 0.1 gets a class in 1..5 and no larger class than the sample 0.3. -/
theorem classifyRisk_class_range_mono_witness :
    (1 ≤ classifyRiskVal multiHazardClassificationThresholds
        (Sample.val (1/10))
      ∧ classifyRiskVal multiHazardClassificationThresholds
          (Sample.val (1/10)) ≤ 5)
    ∧ classifyRiskVal multiHazardClassificationThresholds
        (Sample.val (1/10)) ≤
      classifyRiskVal multiHazardClassificationThresholds
        (Sample.val (3/10)) :=
  classifyRisk_class_range_mono multiHazardClassificationThresholds
    (by norm_num [multiHazardClassificationThresholds])
    (by norm_num [multiHazardClassificationThresholds])
    (by norm_num [multiHazardClassificationThresholds])
    (1/10) (3/10) (by norm_num)

/-- C3: `classify_risk` gives the numeric nodata sentinel `-9999` class 1
(it satisfies the first mask `risk <= thresholds['very_low']`), colliding
with the real class `very_low`, while the claim and the surrounding
pipeline (which writes the classified raster with `nodata=0`) reserve
class 0 for nodata; only NaN samples, which fail every numpy comparison,
actually receive 0. -/
theorem classifyRisk_sentinel_gets_class_one :
    classifyRisk multiHazardClassificationThresholds
      [[Sample.val (-9999)]] = [[1]]
    ∧ classifyRisk multiHazardClassificationThresholds
        [[Sample.nan]] = [[0]]
    ∧ (1 : ℕ) ≠ 0 := by
  refine ⟨?_, ?_, by norm_num⟩ <;>
    norm_num [classifyRisk, classifyRiskVal,
      multiHazardClassificationThresholds]
